import Mathlib

/-!
Shallow embedding of the payment reconciliation flow of the clothes-site
backend (src/user/controllers/paymentController.js), together with the
collaborators it touches: the Order store, the Payment Record store, the
gateway client (Razorpay SDK), the notification sink
(src/admin/controllers/notificationController.js, createNotification) and
the express.json body parser.

Modelling conventions:
  * MongoDB collections are Lean lists; `findOne` is `List.find?`,
    `findOneAndUpdate` / `findByIdAndUpdate` update the first match.
  * JavaScript numbers are modelled as exact rationals (Rat).
  * Dynamically-typed gateway entities and webhook payloads are modelled by
    a JSON value type; JS property access `x.k` is `Json.get`, JS `&&` / `||`
    on possibly-undefined values are `jsAnd` / `jsOr` over `Option Json`
    (with `none` standing for `undefined`).
  * The HMAC-SHA256 primitive (node crypto) is an external collaborator and
    is a function parameter of the environment.
  * Recursion over JSON values uses an explicit fuel argument so that every
    definition is structural and kernel-reducible; the fuel bounds are
    always sufficient for the inputs the code feeds them.
-/

namespace Shop

/-- JSON values, as produced by the express.json body parser and by the
gateway SDK.  Numbers are modelled as integers (the gateway amounts are
integral minor units). -/
inductive Json where
  | null : Json
  | bool : Bool → Json
  | num : Int → Json
  | str : String → Json
  | arr : List Json → Json
  | obj : List (String × Json) → Json

/-- JS property access `j.k`: `none` models `undefined`. -/
def Json.get : Json → String → Option Json
  | .obj fs, k => (fs.find? (fun kv => kv.1 == k)).map (fun kv => kv.2)
  | _, _ => none

/-- `j.k` when the code expects a string there; non-string values give
`none`. -/
def Json.getStr (j : Json) (k : String) : Option String :=
  match j.get k with
  | some (.str s) => some s
  | _ => none

/-- `j.k` when the code expects a number there. -/
def Json.getNum (j : Json) (k : String) : Option Int :=
  match j.get k with
  | some (.num n) => some n
  | _ => none

/-- JavaScript truthiness of a JSON value. -/
def Json.truthy : Json → Bool
  | .null => false
  | .bool b => b
  | .num n => n != 0
  | .str s => s != ""
  | .arr _ => true
  | .obj _ => true

/-- JavaScript truthiness of a possibly-undefined value. -/
def jsTruthy : Option Json → Bool
  | none => false
  | some v => v.truthy

/-- JavaScript `a || b` on possibly-undefined values. -/
def jsOr (a b : Option Json) : Option Json :=
  if jsTruthy a then a else b

/-- JavaScript `a && b` on possibly-undefined values. -/
def jsAnd (a b : Option Json) : Option Json :=
  if jsTruthy a then b else a

/-- Final value of a JS `||` chain that ends in a literal (so the result is
always defined). -/
def jsValD (a : Option Json) : Json := a.getD Json.null

/-- String escaping of JSON.stringify (the control characters the payloads
of this system can contain). -/
def quoteChar (c : Char) : String :=
  if c = '"' then "\\\""
  else if c = '\\' then "\\\\"
  else if c = '\n' then "\\n"
  else if c = '\t' then "\\t"
  else if c = '\r' then "\\r"
  else Char.toString c

def quoteJson (s : String) : String :=
  "\"" ++ String.join (s.data.map quoteChar) ++ "\""

mutual

/-- `JSON.stringify(payload)` as used by handlePaymentWebhook (line 306):
the compact serialization (no extra spacing) of the parsed body. -/
def Json.stringify : Json → String
  | .null => "null"
  | .bool b => if b then "true" else "false"
  | .num n => toString n
  | .str s => quoteJson s
  | .arr xs => "[" ++ stringifyElems xs ++ "]"
  | .obj fs => "\x7b" ++ stringifyMembers fs ++ "\x7d"

/-- Comma-separated serialization of array elements. -/
def stringifyElems : List Json → String
  | [] => ""
  | [x] => Json.stringify x
  | x :: y :: xs => Json.stringify x ++ "," ++ stringifyElems (y :: xs)

/-- Comma-separated serialization of object members. -/
def stringifyMembers : List (String × Json) → String
  | [] => ""
  | [(k, v)] => quoteJson k ++ ":" ++ Json.stringify v
  | (k, v) :: f :: fs => quoteJson k ++ ":" ++ Json.stringify v ++ "," ++ stringifyMembers (f :: fs)

end

/-- Whitespace skipping of the JSON grammar. -/
def skipWs : List Char → List Char
  | [] => []
  | c :: cs => if c = ' ' ∨ c = '\n' ∨ c = '\t' ∨ c = '\r' then skipWs cs else c :: cs

/-- JSON string-literal body (after the opening quote), with the escape
sequences this model supports. -/
def pStringAux : List Char → List Char → Option (String × List Char)
  | acc, '"' :: cs => some (String.mk acc.reverse, cs)
  | acc, '\\' :: c :: cs =>
      if c = '"' then pStringAux ('"' :: acc) cs
      else if c = '\\' then pStringAux ('\\' :: acc) cs
      else if c = '/' then pStringAux ('/' :: acc) cs
      else if c = 'n' then pStringAux ('\n' :: acc) cs
      else if c = 't' then pStringAux ('\t' :: acc) cs
      else if c = 'r' then pStringAux ('\r' :: acc) cs
      else none
  | _, [] => none
  | _, ['\\'] => none
  | acc, c :: cs => pStringAux (c :: acc) cs

/-- Digit run of a JSON number. -/
def pNatAux : Nat → List Char → Nat × List Char
  | n, [] => (n, [])
  | n, c :: cs => if c.isDigit then pNatAux (n * 10 + (c.toNat - 48)) cs else (n, c :: cs)

mutual

/-- JSON value parser (integer numbers; fuel keeps recursion structural). -/
def pVal : Nat → List Char → Option (Json × List Char)
  | 0, _ => none
  | Nat.succ fuel, cs =>
    match skipWs cs with
    | '{' :: rest =>
      (match skipWs rest with
       | '}' :: rest2 => some (Json.obj [], rest2)
       | _ =>
         match pMembers fuel (skipWs rest) with
         | some (fs, rest2) =>
           (match skipWs rest2 with
            | '}' :: rest3 => some (Json.obj fs, rest3)
            | _ => none)
         | none => none)
    | '[' :: rest =>
      (match skipWs rest with
       | ']' :: rest2 => some (Json.arr [], rest2)
       | _ =>
         match pElems fuel (skipWs rest) with
         | some (xs, rest2) =>
           (match skipWs rest2 with
            | ']' :: rest3 => some (Json.arr xs, rest3)
            | _ => none)
         | none => none)
    | '"' :: rest => (pStringAux [] rest).map (fun sp => (Json.str sp.1, sp.2))
    | 't' :: 'r' :: 'u' :: 'e' :: rest => some (Json.bool true, rest)
    | 'f' :: 'a' :: 'l' :: 's' :: 'e' :: rest => some (Json.bool false, rest)
    | 'n' :: 'u' :: 'l' :: 'l' :: rest => some (Json.null, rest)
    | '-' :: c :: rest =>
      if c.isDigit then
        let p := pNatAux (c.toNat - 48) rest
        some (Json.num (-(p.1 : Int)), p.2)
      else none
    | c :: rest =>
      if c.isDigit then
        let p := pNatAux (c.toNat - 48) rest
        some (Json.num (p.1 : Int), p.2)
      else none
    | [] => none

/-- Members of a JSON object. -/
def pMembers : Nat → List Char → Option (List (String × Json) × List Char)
  | 0, _ => none
  | Nat.succ fuel, cs =>
    match skipWs cs with
    | '"' :: rest =>
      (match pStringAux [] rest with
       | some (k, rest2) =>
         (match skipWs rest2 with
          | ':' :: rest3 =>
            (match pVal fuel rest3 with
             | some (v, rest4) =>
               (match skipWs rest4 with
                | ',' :: rest5 =>
                  (match pMembers fuel rest5 with
                   | some (fs, rest6) => some ((k, v) :: fs, rest6)
                   | none => none)
                | _ => some ([(k, v)], rest4))
             | none => none)
          | _ => none)
       | none => none)
    | _ => none

/-- Elements of a JSON array. -/
def pElems : Nat → List Char → Option (List Json × List Char)
  | 0, _ => none
  | Nat.succ fuel, cs =>
    match pVal fuel cs with
    | some (v, rest) =>
      (match skipWs rest with
       | ',' :: rest2 =>
         (match pElems fuel rest2 with
          | some (xs, rest3) => some (v :: xs, rest3)
          | none => none)
       | _ => some ([v], rest))
    | none => none

end

/-- The express.json body parser (src/unnamed/part_000 server setup,
`app.use(express.json(...))`): JSON.parse of the raw request body, `none`
when the body is not valid JSON (express then rejects the request before
the route handler runs). -/
def Json.parse (s : String) : Option Json :=
  match pVal (s.length + 2) s.data with
  | some (j, rest) => if skipWs rest = [] then some j else none
  | none => none

/-- The environment of external collaborators: the gateway secrets (env
vars), the HMAC-SHA256 primitive (node crypto), the gateway SDK
(`razorpay.payments.fetch`, `razorpay.orders.create`), fresh identifiers,
and whether the notification sink's save throws. -/
structure Env where
  keySecret : String
  webhookSecret : String
  hmacSHA256 : String → String → String
  fetchPayment : String → Json
  newGatewayOrderId : String
  newPaymentId : String
  notifyFails : Bool

/-- A Payment Record document (src/user/models/Payment.js as used by the
controller). -/
structure Payment where
  id : String
  orderId : String
  userId : String
  razorpayOrderId : String
  razorpayPaymentId : Option String := none
  razorpaySignature : Option String := none
  amount : ℚ
  currency : String := "INR"
  status : String := "pending"
  paymentMethod : String := "card"
  paymentDetails : Option Json := none
  refundDetails : Option Json := none
  error : Option String := none

/-- The payment sub-record embedded in an Order document. -/
structure OrderPayment where
  method : Option String := none
  status : Option String := none
  razorpayOrderId : Option String := none
  razorpayPaymentId : Option String := none
  razorpaySignature : Option String := none
  paymentMethod : Option String := none
  amount : Option ℚ := none
  details : Option Json := none
  error : Option String := none

/-- An Order document (the fields the payment controller touches). -/
structure Order where
  id : String
  orderNumber : String
  status : String := "pending"
  payment : OrderPayment := {}

/-- The `data` argument of createNotification. -/
structure NotificationData where
  paymentId : Option String := none
  orderId : String
  orderNumber : String
  amount : ℚ
  status : String
  error : Option String := none

/-- A Notification document. -/
structure Notification where
  type : String
  message : String
  data : NotificationData

/-- The persistent state: the three MongoDB collections the reconciliation
flow touches. -/
structure Db where
  orders : List Order := []
  payments : List Payment := []
  notifications : List Notification := []

/-- Update the first document matching `pred` (MongoDB updates one document
for findOneAndUpdate / findByIdAndUpdate / save-after-findOne). -/
def updateFirst {α : Type} (pred : α → Bool) (f : α → α) : List α → List α
  | [] => []
  | x :: xs => if pred x then f x :: xs else x :: updateFirst pred f xs

/-- `Model.findOneAndUpdate(query, update, { new: true })`: returns the
updated document (none when no match) and the updated collection. -/
def findOneAndUpdate {α : Type} (pred : α → Bool) (f : α → α) (xs : List α) :
    Option α × List α :=
  ((xs.find? pred).map f, updateFirst pred f xs)

/-- createNotification (src/unnamed/part_002): saves a Notification and
rethrows any save error; `none` models the save throwing
(`env.notifyFails`). -/
def createNotification (env : Env) (db : Db) (n : Notification) : Option Db :=
  if env.notifyFails then none
  else some { db with notifications := db.notifications ++ [n] }

/-- Payment-method normalization of verifyPayment (paymentController.js
lines 188-207): the gateway-reported method is mapped through a fixed
table; otherwise the client hint (default "card") is kept. -/
def resolveMethod (payment_method : String) (razorpayPayment : Json) : String :=
  let paymentMethod := if payment_method = "" then "card" else payment_method
  if jsTruthy (razorpayPayment.get "method") then
    let m := razorpayPayment.getStr "method"
    if m = some "upi" ∨ m = some "upi_intent" then "upi"
    else if m = some "netbanking" then "netbanking"
    else if m = some "wallet" then "wallet"
    else if m = some "emi" then "emi"
    else if m = some "card" then "card"
    else paymentMethod
  else paymentMethod

/-- JS `a && a.k` (used in the detail-extraction fallback chains). -/
def jsAndGet (a : Option Json) (k : String) : Option Json :=
  jsAnd a (a.bind (fun j => j.get k))

/-- The `'unknown'` literal ending each fallback chain. -/
def unknownStr : Option Json := some (Json.str "unknown")

/-- Card sub-field fallback of lines 245-247:
`(rp.card && (rp.card.k1 || rp.card.k2)) || 'unknown'`. -/
def cardField (rp : Json) (k1 k2 : String) : Json :=
  jsValD (jsOr (jsAnd (rp.get "card")
    (jsOr ((rp.get "card").bind (fun c => c.get k1))
          ((rp.get "card").bind (fun c => c.get k2)))) unknownStr)

/-- Method-specific payment detail object of verifyPayment (lines 217-250):
an object literal whose conditional spreads contribute one sub-object per
matching method. -/
def extractDetails (paymentMethod : String) (rp : Json) : Json :=
  Json.obj (
    (if paymentMethod = "upi" then
      [("upi", Json.obj [("vpa", jsValD (jsOr (rp.get "vpa")
        (jsOr (jsAndGet (rp.get "upi") "vpa")
          (jsOr (jsAndGet (rp.get "upi_intent") "vpa") unknownStr))))])]
     else []) ++
    (if paymentMethod = "netbanking" then
      [("bank", Json.obj
        [("name", jsValD (jsOr (rp.get "bank")
            (jsOr (jsAndGet (rp.get "netbanking") "bank_name") unknownStr))),
         ("ifsc", jsValD (jsOr (rp.get "ifsc")
            (jsOr (jsAndGet (rp.get "netbanking") "ifsc") unknownStr)))])]
     else []) ++
    (if paymentMethod = "wallet" then
      [("wallet", Json.obj [("name", jsValD (jsOr (rp.get "wallet")
        (jsOr (jsAndGet (rp.get "wallet") "name") unknownStr)))])]
     else []) ++
    (if paymentMethod = "card" then
      [("card", Json.obj
        [("last4", cardField rp "last4" "last4_digits"),
         ("network", cardField rp "network" "card_network"),
         ("issuer", cardField rp "issuer" "issuer_name")])]
     else []))

/-- Body of the synchronous verification endpoint; `""` models an
absent/empty field (both are JS-falsy). -/
structure VerifyReq where
  razorpay_order_id : String := ""
  razorpay_payment_id : String := ""
  razorpay_signature : String := ""
  payment_method : String := ""
  order_id : String := ""

/-- Responses of verifyPayment (400 missing fields / 400 invalid signature
with its details object / 404 / 200 success). -/
inductive VerifyResult where
  | missingFields (fields : List String)
  | invalidSignature (received expected : String)
  | notFound
  | success (data : Option Payment) (message : String)

/-- The `missingFields` array of lines 141-145. -/
def verifyMissingFields (req : VerifyReq) : List String :=
  (if req.razorpay_order_id = "" then ["razorpay_order_id"] else []) ++
  (if req.razorpay_payment_id = "" then ["razorpay_payment_id"] else []) ++
  (if req.razorpay_signature = "" then ["razorpay_signature"] else []) ++
  (if req.order_id = "" then ["order_id"] else [])

/-- The Payment Record update of verifyPayment (lines 253-263). -/
def verifySetPayment (req : VerifyReq) (paymentMethod : String)
    (paymentDetails : Json) (p : Payment) : Payment :=
  { p with
      razorpayPaymentId := some req.razorpay_payment_id,
      razorpaySignature := some req.razorpay_signature,
      status := "completed",
      paymentMethod := paymentMethod,
      paymentDetails := some paymentDetails }

/-- The Order update of verifyPayment (lines 268-275). -/
def verifySetOrder (req : VerifyReq) (paymentMethod : String) (o : Order) : Order :=
  { o with
      payment := { o.payment with
        status := some "completed",
        razorpayPaymentId := some req.razorpay_payment_id,
        razorpaySignature := some req.razorpay_signature,
        method := some "razorpay",
        paymentMethod := some paymentMethod },
      status := "confirmed" }

/-- verifyPayment (paymentController.js lines 128-292). -/
def verifyPayment (env : Env) (db : Db) (req : VerifyReq) : VerifyResult × Db :=
  if verifyMissingFields req ≠ [] then (.missingFields (verifyMissingFields req), db)
  else
    let body := req.razorpay_order_id ++ "|" ++ req.razorpay_payment_id
    let expectedSignature := env.hmacSHA256 env.keySecret body
    if expectedSignature ≠ req.razorpay_signature then
      (.invalidSignature req.razorpay_signature expectedSignature, db)
    else
      let razorpayPayment := env.fetchPayment req.razorpay_payment_id
      let paymentMethod := resolveMethod req.payment_method razorpayPayment
      match db.payments.find? (fun p => p.razorpayOrderId == req.razorpay_order_id) with
      | none => (.notFound, db)
      | some _ =>
        let paymentDetails := extractDetails paymentMethod razorpayPayment
        let (payment, payments1) :=
          findOneAndUpdate (fun p => p.razorpayOrderId == req.razorpay_order_id)
            (verifySetPayment req paymentMethod paymentDetails) db.payments
        let (_, orders1) :=
          findOneAndUpdate (fun o => o.id == req.order_id)
            (verifySetOrder req paymentMethod) db.orders
        (.success payment ("Payment successful via " ++ paymentMethod),
         { db with payments := payments1, orders := orders1 })

/-- Body of the gateway-order initiation endpoint.  The JS number `amount`
is modelled as an exact rational; `currency = none` means the field was
absent (so the `'INR'` default applies); `paymentMethod = ""` models an
absent/empty method (both JS-falsy). -/
structure CreateOrderReq where
  amount : ℚ
  currency : Option String := none
  orderId : String
  paymentMethod : String := ""
  userId : String

/-- Responses of createOrder (400 missing / 400 invalid amount / 200). -/
inductive CreateOrderResult where
  | missingFields
  | invalidAmount
  | success (gatewayOrderId : String) (amountMinor : ℤ) (currency : String)
      (paymentMethod : String)
deriving DecidableEq

/-- JS `Math.round` (round half toward positive infinity). -/
def mathRound (x : ℚ) : ℤ := ⌊x + 1 / 2⌋

/-- The in-place update of an existing Payment Record in createOrder
(lines 56-67): overwrite gateway order id, amount and currency, and the
method only when a non-default method was explicitly supplied. -/
def createOrderSetPayment (req : CreateOrderReq) (rzpId : String) (currency : String)
    (validPaymentMethod : String) (p : Payment) : Payment :=
  { p with
      razorpayOrderId := rzpId,
      amount := req.amount,
      currency := currency,
      paymentMethod :=
        if req.paymentMethod ≠ "" ∧ req.paymentMethod ≠ "razorpay" then validPaymentMethod
        else p.paymentMethod }

/-- The Order stamping of createOrder (lines 84-89). -/
def createOrderSetOrder (req : CreateOrderReq) (rzpId : String) (o : Order) : Order :=
  { o with
      payment := { o.payment with
        method := some "razorpay",
        status := some "pending",
        razorpayOrderId := some rzpId,
        amount := some req.amount } }

/-- createOrder (paymentController.js lines 17-123), on the path where the
gateway call succeeds: `razorpay.orders.create` allocates
`env.newGatewayOrderId` and echoes the requested minor-unit amount and
currency. -/
def createOrder (env : Env) (db : Db) (req : CreateOrderReq) : CreateOrderResult × Db :=
  let currency := req.currency.getD "INR"
  if req.amount = 0 ∨ req.orderId = "" then (.missingFields, db)
  else if req.amount ≤ 0 then (.invalidAmount, db)
  else
    let amountInPaise := mathRound (req.amount * 100)
    let rzpId := env.newGatewayOrderId
    let validPaymentMethod := if req.paymentMethod = "" then "card" else req.paymentMethod
    let payments1 :=
      match db.payments.find? (fun p => p.orderId == req.orderId) with
      | some _ =>
        updateFirst (fun p => p.orderId == req.orderId)
          (createOrderSetPayment req rzpId currency validPaymentMethod) db.payments
      | none =>
        db.payments ++ [{ id := env.newPaymentId, orderId := req.orderId,
                          userId := req.userId, razorpayOrderId := rzpId,
                          amount := req.amount, currency := currency,
                          status := "pending", paymentMethod := validPaymentMethod }]
    let orders1 :=
      updateFirst (fun o => o.id == req.orderId) (createOrderSetOrder req rzpId) db.orders
    (.success rzpId amountInPaise currency validPaymentMethod,
     { db with payments := payments1, orders := orders1 })

/-- `payload.payload.<k>.entity` of the webhook handlers.  A missing link
or a null entity makes the subsequent property accesses throw a TypeError
which the handler's catch turns into a logged no-op, so both are `none`. -/
def entityOf (payload : Json) (k : String) : Option Json :=
  match ((payload.get "payload").bind (fun x => x.get k)).bind (fun x => x.get "entity") with
  | some Json.null => none
  | x => x

/-- `payment.amount / 100` of the notification messages (absent amount is
modelled as 0). -/
def minorToMajor (e : Json) : ℚ := (((e.getNum "amount").getD 0 : ℚ)) / 100

/-- handlePaymentCaptured (lines 341-382).  Note the source emits the
notification before the Order/Payment updates, inside the same try: a
notification failure is caught and logged but skips both updates. -/
def handlePaymentCaptured (env : Env) (db : Db) (payload : Json) : Db :=
  match entityOf payload "payment" with
  | none => db
  | some payment =>
    match db.orders.find? (fun o => o.payment.razorpayOrderId == payment.getStr "order_id") with
    | none => db
    | some order =>
      match createNotification env db
        { type := "payment",
          message := "Payment of ₹" ++ toString (minorToMajor payment) ++
            " received for order #" ++ order.orderNumber,
          data := { paymentId := payment.getStr "id", orderId := order.id,
                    orderNumber := order.orderNumber, amount := minorToMajor payment,
                    status := "success" } } with
      | none => db
      | some db1 =>
        let orders2 :=
          updateFirst (fun o => o.id == order.id)
            (fun o => { o with
              payment := { o.payment with
                status := some "completed",
                razorpayPaymentId := payment.getStr "id",
                details := some payment } }) db1.orders
        let payments2 :=
          updateFirst (fun p => some p.razorpayOrderId == payment.getStr "order_id")
            (fun p => { p with
              status := "completed",
              razorpayPaymentId := payment.getStr "id",
              paymentDetails := some payment }) db1.payments
        { db1 with orders := orders2, payments := payments2 }

/-- handlePaymentFailed (lines 387-427). -/
def handlePaymentFailed (env : Env) (db : Db) (payload : Json) : Db :=
  match entityOf payload "payment" with
  | none => db
  | some payment =>
    match db.orders.find? (fun o => o.payment.razorpayOrderId == payment.getStr "order_id") with
    | none => db
    | some order =>
      match createNotification env db
        { type := "payment",
          message := "Payment of ₹" ++ toString (minorToMajor payment) ++
            " failed for order #" ++ order.orderNumber,
          data := { paymentId := payment.getStr "id", orderId := order.id,
                    orderNumber := order.orderNumber, amount := minorToMajor payment,
                    status := "failed", error := payment.getStr "error_description" } } with
      | none => db
      | some db1 =>
        let orders2 :=
          updateFirst (fun o => o.id == order.id)
            (fun o => { o with
              payment := { o.payment with
                status := some "failed",
                error := payment.getStr "error_description" } }) db1.orders
        let payments2 :=
          updateFirst (fun p => some p.razorpayOrderId == payment.getStr "order_id")
            (fun p => { p with
              status := "failed",
              error := payment.getStr "error_description" }) db1.payments
        { db1 with orders := orders2, payments := payments2 }

/-- handleRefundCreated (lines 432-469). -/
def handleRefundCreated (env : Env) (db : Db) (payload : Json) : Db :=
  match entityOf payload "refund" with
  | none => db
  | some refund =>
    match db.payments.find? (fun p => p.razorpayPaymentId == refund.getStr "payment_id") with
    | none => db
    | some payment =>
      match db.orders.find? (fun o => o.id == payment.orderId) with
      | none => db
      | some order =>
        match createNotification env db
          { type := "payment",
            message := "Refund of ₹" ++ toString (minorToMajor refund) ++
              " processed for order #" ++ order.orderNumber,
            data := { paymentId := some payment.id, orderId := order.id,
                      orderNumber := order.orderNumber, amount := minorToMajor refund,
                      status := "refunded" } } with
        | none => db
        | some db1 =>
          { db1 with
              payments :=
                updateFirst (fun p => p.id == payment.id)
                  (fun p => { p with status := "refunded", refundDetails := some refund })
                  db1.payments }

/-- Responses of the webhook endpoint.  `badJson` models express.json
rejecting an unparseable body before the route handler runs. -/
inductive WebhookResult where
  | badJson
  | invalidSignature
  | received
deriving DecidableEq

/-- The `switch (event)` dispatch of lines 314-329 (unhandled events are
only logged). -/
def dispatchWebhookEvent (env : Env) (db : Db) (payload : Json) : Db :=
  match payload.getStr "event" with
  | some "payment.captured" => handlePaymentCaptured env db payload
  | some "payment.failed" => handlePaymentFailed env db payload
  | some "refund.created" => handleRefundCreated env db payload
  | _ => db

/-- handlePaymentWebhook (lines 297-336): the expected signature is the
HMAC over `JSON.stringify(req.body)` — the re-serialization of the parsed
body, not the raw bytes. -/
def handlePaymentWebhook (env : Env) (db : Db) (rawBody : String)
    (signatureHeader : String) : WebhookResult × Db :=
  match Json.parse rawBody with
  | none => (.badJson, db)
  | some payload =>
    let expectedSignature := env.hmacSHA256 env.webhookSecret payload.stringify
    if signatureHeader ≠ expectedSignature then (.invalidSignature, db)
    else (.received, dispatchWebhookEvent env db payload)

/-! ### Generic lemmas about the store operations -/

theorem updateFirst_of_no_match {α : Type} (pred : α → Bool) (f : α → α) :
    ∀ xs : List α, (∀ x ∈ xs, pred x = false) → updateFirst pred f xs = xs := by
  intro xs
  induction xs with
  | nil => intro _; rfl
  | cons x xs ih =>
    intro h
    simp only [updateFirst, h x (List.mem_cons_self x xs)]
    simp only [Bool.false_eq_true, if_false, List.cons.injEq, true_and]
    exact ih (fun y hy => h y (List.mem_cons_of_mem x hy))

theorem map_updateFirst {α β : Type} (pred : α → Bool) (f : α → α) (g : α → β)
    (hg : ∀ x, g (f x) = g x) :
    ∀ xs : List α, (updateFirst pred f xs).map g = xs.map g := by
  intro xs
  induction xs with
  | nil => rfl
  | cons x xs ih =>
    by_cases h : pred x
    · simp [updateFirst, h, hg]
    · simp [updateFirst, h, ih]

theorem find?_updateFirst {α : Type} (pred : α → Bool) (f : α → α)
    (hp : ∀ x, pred (f x) = pred x) :
    ∀ xs : List α, (updateFirst pred f xs).find? pred = (xs.find? pred).map f := by
  intro xs
  induction xs with
  | nil => rfl
  | cons x xs ih =>
    by_cases h : pred x
    · simp [updateFirst, h, List.find?_cons, hp]
    · simp only [updateFirst, h, Bool.false_eq_true, if_false]
      rw [List.find?_cons_of_neg _ (by simp [h]), List.find?_cons_of_neg _ (by simp [h]), ih]

theorem updateFirst_updateFirst {α : Type} (pred : α → Bool) (f : α → α)
    (hp : ∀ x, pred (f x) = pred x) (hf : ∀ x, f (f x) = f x) :
    ∀ xs : List α, updateFirst pred f (updateFirst pred f xs) = updateFirst pred f xs := by
  intro xs
  induction xs with
  | nil => rfl
  | cons x xs ih =>
    by_cases h : pred x
    · simp [updateFirst, h, hp, hf]
    · simp [updateFirst, h, ih]

theorem getElem?_map_updateFirst {α β : Type} (pred : α → Bool) (f : α → α) (g : α → β)
    (c : β) (hc : ∀ x, g (f x) = c) :
    ∀ (xs : List α) (i : Nat),
      ((updateFirst pred f xs).map g)[i]? = (xs.map g)[i]? ∨
      ((updateFirst pred f xs).map g)[i]? = some c := by
  intro xs
  induction xs with
  | nil => intro i; left; rfl
  | cons x xs ih =>
    intro i
    by_cases h : pred x
    · cases i with
      | zero => right; simp [updateFirst, h, hc]
      | succ j => left; simp [updateFirst, h]
    · cases i with
      | zero => left; simp [updateFirst, h]
      | succ j =>
        simp only [updateFirst, h, Bool.false_eq_true, if_false, List.map_cons,
          List.getElem?_cons_succ]
        exact ih j

/-! ### The signature-mismatch path of verifyPayment (shared helper) -/

theorem verifyPayment_mismatch (env : Env) (db : Db) (req : VerifyReq)
    (h1 : req.razorpay_order_id ≠ "") (h2 : req.razorpay_payment_id ≠ "")
    (h3 : req.razorpay_signature ≠ "") (h4 : req.order_id ≠ "")
    (hsig : env.hmacSHA256 env.keySecret
        (req.razorpay_order_id ++ "|" ++ req.razorpay_payment_id) ≠ req.razorpay_signature) :
    verifyPayment env db req =
      (.invalidSignature req.razorpay_signature
        (env.hmacSHA256 env.keySecret
          (req.razorpay_order_id ++ "|" ++ req.razorpay_payment_id)), db) := by
  simp [verifyPayment, verifyMissingFields, h1, h2, h3, h4, hsig]

/-! ### The success path of verifyPayment (shared helper) -/

/-- The resolved method of a verification call: the gateway-fetched entity
is authoritative over the client hint. -/
def verifyResolvedMethod (env : Env) (req : VerifyReq) : String :=
  resolveMethod req.payment_method (env.fetchPayment req.razorpay_payment_id)

/-- The full Payment Record update a successful verification applies. -/
def verifyUpdatedPayment (env : Env) (req : VerifyReq) : Payment → Payment :=
  verifySetPayment req (verifyResolvedMethod env req)
    (extractDetails (verifyResolvedMethod env req) (env.fetchPayment req.razorpay_payment_id))

/-- The full Order update a successful verification applies. -/
def verifyUpdatedOrder (env : Env) (req : VerifyReq) : Order → Order :=
  verifySetOrder req (verifyResolvedMethod env req)

theorem verifyPayment_success (env : Env) (db : Db) (req : VerifyReq)
    (h1 : req.razorpay_order_id ≠ "") (h2 : req.razorpay_payment_id ≠ "")
    (h3 : req.razorpay_signature ≠ "") (h4 : req.order_id ≠ "")
    (hsig : env.hmacSHA256 env.keySecret
        (req.razorpay_order_id ++ "|" ++ req.razorpay_payment_id) = req.razorpay_signature)
    (p : Payment)
    (hfind : db.payments.find? (fun q => q.razorpayOrderId == req.razorpay_order_id) = some p) :
    verifyPayment env db req =
      (.success (some (verifyUpdatedPayment env req p))
        ("Payment successful via " ++ verifyResolvedMethod env req),
       { db with
           payments := updateFirst (fun q => q.razorpayOrderId == req.razorpay_order_id)
             (verifyUpdatedPayment env req) db.payments,
           orders := updateFirst (fun o => o.id == req.order_id)
             (verifyUpdatedOrder env req) db.orders }) := by
  simp [verifyPayment, verifyMissingFields, h1, h2, h3, h4, hsig, hfind, findOneAndUpdate,
        verifyUpdatedPayment, verifyUpdatedOrder, verifyResolvedMethod]

/-! ### Concrete fixtures used by witnesses and counterexamples -/

/-- A concrete keyed-hash collaborator for closed instances (the HMAC
primitive is an opaque external function; any concrete instance of the
environment exhibits the handler's control flow). -/
def envW : Env where
  keySecret := "ks"
  webhookSecret := "ws"
  hmacSHA256 := fun k m => k ++ "." ++ m
  fetchPayment := fun _ =>
    Json.obj [("method", Json.str "upi_intent"), ("id", Json.str "pay_1"),
              ("vpa", Json.str "a@upi")]
  newGatewayOrderId := "order_rz_2"
  newPaymentId := "p2"
  notifyFails := false

/-- The same environment with a failing notification sink. -/
def envWFail : Env := { envW with notifyFails := true }

/-- One stored Order whose payment sub-record carries gateway order id
"order_rz_1". -/
def dbW : Db where
  orders := [{ id := "o1", orderNumber := "1001", status := "pending",
               payment := { razorpayOrderId := some "order_rz_1" } }]
  payments := [{ id := "p1", orderId := "o1", userId := "u1",
                 razorpayOrderId := "order_rz_1", amount := 499,
                 currency := "INR", status := "pending", paymentMethod := "card" }]
  notifications := []

/-- A verification request whose signature is not the HMAC of
"order_rz_1|pay_1". -/
def reqBad : VerifyReq where
  razorpay_order_id := "order_rz_1"
  razorpay_payment_id := "pay_1"
  razorpay_signature := "tampered"
  payment_method := "card"
  order_id := "o1"

/-! ### C1 -/

/-- C1: when all verification fields are supplied and the supplied
signature differs from the HMAC-SHA256 (under the gateway shared secret)
of "{gateway_order_id}|{gateway_payment_id}", verifyPayment rejects with
the invalid-signature error and returns the state unchanged: no Payment
Record and no Order is touched. -/
theorem c1_invalid_signature_no_mutation (env : Env) (db : Db) (req : VerifyReq)
    (h1 : req.razorpay_order_id ≠ "") (h2 : req.razorpay_payment_id ≠ "")
    (h3 : req.razorpay_signature ≠ "") (h4 : req.order_id ≠ "")
    (hsig : env.hmacSHA256 env.keySecret
        (req.razorpay_order_id ++ "|" ++ req.razorpay_payment_id) ≠ req.razorpay_signature) :
    verifyPayment env db req =
      (.invalidSignature req.razorpay_signature
        (env.hmacSHA256 env.keySecret
          (req.razorpay_order_id ++ "|" ++ req.razorpay_payment_id)), db) :=
  verifyPayment_mismatch env db req h1 h2 h3 h4 hsig

/-- Witness for C1 at a concrete tampered request. -/
theorem c1_invalid_signature_no_mutation_witness :
    reqBad.razorpay_order_id ≠ "" ∧ reqBad.razorpay_payment_id ≠ "" ∧
    reqBad.razorpay_signature ≠ "" ∧ reqBad.order_id ≠ "" ∧
    envW.hmacSHA256 envW.keySecret
        (reqBad.razorpay_order_id ++ "|" ++ reqBad.razorpay_payment_id) ≠
      reqBad.razorpay_signature ∧
    verifyPayment envW dbW reqBad =
      (.invalidSignature reqBad.razorpay_signature
        (envW.hmacSHA256 envW.keySecret
          (reqBad.razorpay_order_id ++ "|" ++ reqBad.razorpay_payment_id)), dbW) :=
  ⟨by decide, by decide, by decide, by decide, by decide,
   c1_invalid_signature_no_mutation envW dbW reqBad (by decide) (by decide) (by decide)
     (by decide) (by decide)⟩

/-! ### C9 -/

/-- C9 (implicit): on a signature mismatch the error response's details
carry the expected signature — the correct HMAC-SHA256 of
"{gateway_order_id}|{gateway_payment_id}" under the gateway shared
secret — disclosing a valid signature for that identifier pair to the
caller. -/
theorem c9_expected_signature_disclosed (env : Env) (db : Db) (req : VerifyReq)
    (h1 : req.razorpay_order_id ≠ "") (h2 : req.razorpay_payment_id ≠ "")
    (h3 : req.razorpay_signature ≠ "") (h4 : req.order_id ≠ "")
    (hsig : env.hmacSHA256 env.keySecret
        (req.razorpay_order_id ++ "|" ++ req.razorpay_payment_id) ≠ req.razorpay_signature) :
    (verifyPayment env db req).1 =
      .invalidSignature req.razorpay_signature
        (env.hmacSHA256 env.keySecret
          (req.razorpay_order_id ++ "|" ++ req.razorpay_payment_id)) := by
  rw [verifyPayment_mismatch env db req h1 h2 h3 h4 hsig]

/-- Witness for C9 at a concrete tampered request. -/
theorem c9_expected_signature_disclosed_witness :
    envW.hmacSHA256 envW.keySecret
        (reqBad.razorpay_order_id ++ "|" ++ reqBad.razorpay_payment_id) ≠
      reqBad.razorpay_signature ∧
    (verifyPayment envW dbW reqBad).1 =
      .invalidSignature reqBad.razorpay_signature
        (envW.hmacSHA256 envW.keySecret
          (reqBad.razorpay_order_id ++ "|" ++ reqBad.razorpay_payment_id)) :=
  ⟨by decide,
   c9_expected_signature_disclosed envW dbW reqBad (by decide) (by decide) (by decide)
     (by decide) (by decide)⟩

/-! ### C10 -/

/-- C10 (implicit): with a valid signature and an existing Payment Record,
verifyPayment reports success even when `order_id` matches no stored
Order — only the Payment Record lookup gates the not-found rejection, and
the unmatched Order update leaves the Order store unchanged. -/
theorem c10_success_without_order (env : Env) (db : Db) (req : VerifyReq)
    (h1 : req.razorpay_order_id ≠ "") (h2 : req.razorpay_payment_id ≠ "")
    (h3 : req.razorpay_signature ≠ "") (h4 : req.order_id ≠ "")
    (hsig : env.hmacSHA256 env.keySecret
        (req.razorpay_order_id ++ "|" ++ req.razorpay_payment_id) = req.razorpay_signature)
    (p : Payment)
    (hfind : db.payments.find? (fun q => q.razorpayOrderId == req.razorpay_order_id) = some p)
    (hno : ∀ o ∈ db.orders, o.id ≠ req.order_id) :
    (verifyPayment env db req).1 =
      .success (some (verifyUpdatedPayment env req p))
        ("Payment successful via " ++ verifyResolvedMethod env req) ∧
    (verifyPayment env db req).2.orders = db.orders := by
  rw [verifyPayment_success env db req h1 h2 h3 h4 hsig p hfind]
  refine ⟨rfl, ?_⟩
  exact updateFirst_of_no_match _ _ db.orders (fun o ho => by simp [hno o ho])

/-- The C10 request: valid signature, `order_id` matching no stored
Order. -/
def reqNoOrder : VerifyReq where
  razorpay_order_id := "order_rz_1"
  razorpay_payment_id := "pay_1"
  razorpay_signature := "ks.order_rz_1|pay_1"
  payment_method := "card"
  order_id := "o-missing"

theorem c10_success_without_order_witness :
    (dbW.payments.find? (fun q => q.razorpayOrderId == reqNoOrder.razorpay_order_id) =
      some { id := "p1", orderId := "o1", userId := "u1", razorpayOrderId := "order_rz_1",
             amount := 499, currency := "INR", status := "pending", paymentMethod := "card" }) ∧
    (verifyPayment envW dbW reqNoOrder).2.orders = dbW.orders :=
  ⟨rfl,
   (c10_success_without_order envW dbW reqNoOrder
      (by decide) (by decide) (by decide) (by decide) (by decide) _ rfl
      (by intro o ho; fin_cases ho; decide)).2⟩

/-! ### C5 -/

theorem verifyUpdatedPayment_idem (env : Env) (req : VerifyReq) (p : Payment) :
    verifyUpdatedPayment env req (verifyUpdatedPayment env req p) =
      verifyUpdatedPayment env req p := rfl

theorem verifyUpdatedPayment_keeps_key (env : Env) (req : VerifyReq) (p : Payment) :
    (verifyUpdatedPayment env req p).razorpayOrderId = p.razorpayOrderId := rfl

theorem verifyUpdatedOrder_idem (env : Env) (req : VerifyReq) (o : Order) :
    verifyUpdatedOrder env req (verifyUpdatedOrder env req o) =
      verifyUpdatedOrder env req o := rfl

theorem verifyUpdatedOrder_keeps_id (env : Env) (req : VerifyReq) (o : Order) :
    (verifyUpdatedOrder env req o).id = o.id := rfl

/-- C5: verification is idempotent.  With the same valid payload (all
fields present, correct signature, existing Payment Record) the first call
succeeds with status `completed`, and the second call returns the very
same response and the very same state (identical stored method and
detail); re-running on the already-completed record is a no-op success,
and the second invocation still verifies the signature (a tampered
signature on the re-invocation is rejected). -/
theorem c5_verification_idempotent (env : Env) (db : Db) (req : VerifyReq)
    (h1 : req.razorpay_order_id ≠ "") (h2 : req.razorpay_payment_id ≠ "")
    (h3 : req.razorpay_signature ≠ "") (h4 : req.order_id ≠ "")
    (hsig : env.hmacSHA256 env.keySecret
        (req.razorpay_order_id ++ "|" ++ req.razorpay_payment_id) = req.razorpay_signature)
    (p : Payment)
    (hfind : db.payments.find? (fun q => q.razorpayOrderId == req.razorpay_order_id) = some p) :
    (verifyPayment env db req).1 =
      .success (some (verifyUpdatedPayment env req p))
        ("Payment successful via " ++ verifyResolvedMethod env req) ∧
    (verifyUpdatedPayment env req p).status = "completed" ∧
    verifyPayment env (verifyPayment env db req).2 req = verifyPayment env db req ∧
    (∀ s : String, s ≠ "" →
      env.hmacSHA256 env.keySecret
          (req.razorpay_order_id ++ "|" ++ req.razorpay_payment_id) ≠ s →
      (verifyPayment env (verifyPayment env db req).2
          { req with razorpay_signature := s }).1 =
        .invalidSignature s
          (env.hmacSHA256 env.keySecret
            (req.razorpay_order_id ++ "|" ++ req.razorpay_payment_id))) := by
  have hkey : ∀ q : Payment,
      ((verifyUpdatedPayment env req q).razorpayOrderId == req.razorpay_order_id) =
        (q.razorpayOrderId == req.razorpay_order_id) := by
    intro q; rw [verifyUpdatedPayment_keeps_key]
  have h := verifyPayment_success env db req h1 h2 h3 h4 hsig p hfind
  have hfind1 : (verifyPayment env db req).2.payments.find?
      (fun q => q.razorpayOrderId == req.razorpay_order_id) =
      some (verifyUpdatedPayment env req p) := by
    rw [h]
    rw [find?_updateFirst (fun q : Payment => q.razorpayOrderId == req.razorpay_order_id)
      (verifyUpdatedPayment env req) hkey, hfind]
    rfl
  have h2nd := verifyPayment_success env (verifyPayment env db req).2 req h1 h2 h3 h4 hsig
    (verifyUpdatedPayment env req p) hfind1
  refine ⟨by rw [h], rfl, ?_, ?_⟩
  · rw [h2nd, verifyUpdatedPayment_idem]
    rw [h]
    have hords : ∀ o : Order,
        ((verifyUpdatedOrder env req o).id == req.order_id) = (o.id == req.order_id) := by
      intro o; rw [verifyUpdatedOrder_keeps_id]
    simp [updateFirst_updateFirst (fun q : Payment => q.razorpayOrderId == req.razorpay_order_id)
            (verifyUpdatedPayment env req) hkey (verifyUpdatedPayment_idem env req),
          updateFirst_updateFirst (fun o : Order => o.id == req.order_id)
            (verifyUpdatedOrder env req) hords (verifyUpdatedOrder_idem env req)]
  · intro s hs hne
    exact congrArg Prod.fst
      (verifyPayment_mismatch env (verifyPayment env db req).2
        { req with razorpay_signature := s } h1 h2 hs h4 hne)

/-- Witness for C5 at a concrete valid payload. -/
theorem c5_verification_idempotent_witness :
    (dbW.payments.find? (fun q => q.razorpayOrderId ==
        ({ reqNoOrder with order_id := "o1" } : VerifyReq).razorpay_order_id)).isSome = true ∧
    verifyPayment envW (verifyPayment envW dbW { reqNoOrder with order_id := "o1" }).2
        { reqNoOrder with order_id := "o1" } =
      verifyPayment envW dbW { reqNoOrder with order_id := "o1" } :=
  ⟨by decide,
   (c5_verification_idempotent envW dbW { reqNoOrder with order_id := "o1" }
      (by decide) (by decide) (by decide) (by decide) (by decide) _ rfl).2.2.1⟩

/-! ### C6 -/

/-- The spec's fixed method-resolution table (modelled from the spec's
words, §4.2): the gateway-reported method maps through
upi/upi_intent→upi, netbanking→netbanking, wallet→wallet, emi→emi,
card→card; an unrecognized or absent gateway method keeps the
client-declared hint, defaulting to card. -/
def specMethodResolution (hint : String) (gm : Option String) : String :=
  match gm with
  | none => if hint = "" then "card" else hint
  | some m =>
    if m = "upi" ∨ m = "upi_intent" then "upi"
    else if m = "netbanking" then "netbanking"
    else if m = "wallet" then "wallet"
    else if m = "emi" then "emi"
    else if m = "card" then "card"
    else if hint = "" then "card" else hint

/-- C6: verifyPayment's method normalization agrees with the spec's fixed
table: whenever the gateway entity's `method` field carries the string
`gm` (or is absent), the resolved method is the table lookup, falling back
to the client-declared hint or "card".  (An empty-string gateway method is
JS-falsy and counts as absent; both sides then fall back to the hint.) -/
theorem c6_method_resolution (hint : String) (rp : Json) (gm : Option String)
    (h : rp.get "method" = gm.map Json.str) :
    resolveMethod hint rp = specMethodResolution hint gm := by
  cases gm with
  | none =>
    simp only [Option.map_none'] at h
    simp [resolveMethod, specMethodResolution, h, jsTruthy]
  | some m =>
    simp only [Option.map_some'] at h
    by_cases hm : m = ""
    · subst hm
      simp [resolveMethod, specMethodResolution, h, jsTruthy, Json.truthy]
    · simp only [resolveMethod, specMethodResolution, h, jsTruthy, Json.truthy, Json.getStr,
        bne_iff_ne, ne_eq, hm, not_false_eq_true, if_true, Option.some.injEq]

/-- Witness for C6: a gateway-reported "upi_intent" with client hint
"netbanking" resolves to "upi". -/
theorem c6_method_resolution_witness :
    (Json.obj [("method", Json.str "upi_intent")]).get "method" =
      (some "upi_intent").map Json.str ∧
    resolveMethod "netbanking" (Json.obj [("method", Json.str "upi_intent")]) =
      specMethodResolution "netbanking" (some "upi_intent") :=
  ⟨rfl, c6_method_resolution "netbanking" _ (some "upi_intent") rfl⟩

/-! ### C8 -/

/-- C8: whenever gateway order initiation accepts an amount (so reports
success), the minor-unit amount sent to the gateway equals
round(amount * 100), rounding to the nearest integer (Math.round, ties
toward positive infinity, coincides with Mathlib's `round`). -/
theorem c8_minor_unit_round (env : Env) (db : Db) (req : CreateOrderReq)
    (g : String) (a : ℤ) (c m : String)
    (h : (createOrder env db req).1 = .success g a c m) :
    a = round (req.amount * 100) := by
  simp only [createOrder] at h
  split at h
  · simp at h
  · split at h
    · simp at h
    · simp only [CreateOrderResult.success.injEq] at h
      rw [← h.2.1]
      simp only [mathRound]
      rw [round_eq]

/-- Witness for C8: amount 499 is sent as 49900 paise. -/
theorem c8_minor_unit_round_witness :
    ((createOrder envW dbW { amount := 499, orderId := "o1", userId := "u1" }).1 =
      .success "order_rz_2" 49900 "INR" "card") ∧
    (49900 : ℤ) = round ((499 : ℚ) * 100) := by
  have h : (createOrder envW dbW { amount := 499, orderId := "o1", userId := "u1" }).1 =
      .success "order_rz_2" 49900 "INR" "card" := by
    norm_num [createOrder, mathRound, envW]
    rfl
  exact ⟨h,
    c8_minor_unit_round envW dbW { amount := 499, orderId := "o1", userId := "u1" }
      "order_rz_2" 49900 "INR" "card" h⟩

/-! ### Webhook fixtures -/

/-- A compact payment.captured body for the stored gateway order id. -/
def rawCaptured : String :=
  "\x7b\"event\":\"payment.captured\",\"payload\":\x7b\"payment\":\x7b\"entity\":\x7b\"order_id\":\"order_rz_1\",\"id\":\"pay_1\",\"amount\":49900\x7d\x7d\x7d\x7d"

/-- A compact payment.captured body whose gateway order id matches no
stored Order. -/
def rawUnknown : String :=
  "\x7b\"event\":\"payment.captured\",\"payload\":\x7b\"payment\":\x7b\"entity\":\x7b\"order_id\":\"order_zzz\",\"id\":\"pay_9\",\"amount\":1\x7d\x7d\x7d\x7d"

/-- The parsed entity of `rawUnknown`. -/
def entityUnknown : Json :=
  Json.obj [("order_id", Json.str "order_zzz"), ("id", Json.str "pay_9"),
            ("amount", Json.num 1)]

/-- The parsed payload of `rawUnknown`. -/
def payloadUnknown : Json :=
  Json.obj [("event", Json.str "payment.captured"),
            ("payload", Json.obj [("payment", Json.obj [("entity", entityUnknown)])])]

/-! ### Notification-sink failure behavior of the webhook handlers -/

theorem handlePaymentCaptured_notify_failure (env : Env) (db : Db) (payload : Json)
    (hf : env.notifyFails = true) : handlePaymentCaptured env db payload = db := by
  cases hent : entityOf payload "payment" with
  | none => simp [handlePaymentCaptured, hent]
  | some pe =>
    cases hfind : db.orders.find? (fun o => o.payment.razorpayOrderId == pe.getStr "order_id") with
    | none => simp [handlePaymentCaptured, hent, hfind]
    | some o => simp [handlePaymentCaptured, hent, hfind, createNotification, hf]

theorem handlePaymentFailed_notify_failure (env : Env) (db : Db) (payload : Json)
    (hf : env.notifyFails = true) : handlePaymentFailed env db payload = db := by
  cases hent : entityOf payload "payment" with
  | none => simp [handlePaymentFailed, hent]
  | some pe =>
    cases hfind : db.orders.find? (fun o => o.payment.razorpayOrderId == pe.getStr "order_id") with
    | none => simp [handlePaymentFailed, hent, hfind]
    | some o => simp [handlePaymentFailed, hent, hfind, createNotification, hf]

theorem handleRefundCreated_notify_failure (env : Env) (db : Db) (payload : Json)
    (hf : env.notifyFails = true) : handleRefundCreated env db payload = db := by
  cases hent : entityOf payload "refund" with
  | none => simp [handleRefundCreated, hent]
  | some re =>
    cases hfindp : db.payments.find? (fun p => p.razorpayPaymentId == re.getStr "payment_id") with
    | none => simp [handleRefundCreated, hent, hfindp]
    | some pay =>
      cases hfindo : db.orders.find? (fun o => o.id == pay.orderId) with
      | none => simp [handleRefundCreated, hent, hfindp, hfindo]
      | some o => simp [handleRefundCreated, hent, hfindp, hfindo, createNotification, hf]

theorem dispatchWebhookEvent_notify_failure (env : Env) (db : Db) (payload : Json)
    (hf : env.notifyFails = true) : dispatchWebhookEvent env db payload = db := by
  unfold dispatchWebhookEvent
  split
  · exact handlePaymentCaptured_notify_failure env db payload hf
  · exact handlePaymentFailed_notify_failure env db payload hf
  · exact handleRefundCreated_notify_failure env db payload hf
  · rfl

/-! ### C7 -/

/-- C7: a signature-valid payment.captured webhook whose gateway order id
matches no stored Order is acknowledged without throwing and without
creating or modifying any record: the whole state is returned unchanged. -/
theorem c7_unknown_order_acknowledged (env : Env) (db : Db) (rawBody sig : String)
    (payload pe : Json)
    (hp : Json.parse rawBody = some payload)
    (hsig : sig = env.hmacSHA256 env.webhookSecret payload.stringify)
    (hev : payload.getStr "event" = some "payment.captured")
    (hent : entityOf payload "payment" = some pe)
    (hno : ∀ o ∈ db.orders, (o.payment.razorpayOrderId == pe.getStr "order_id") = false) :
    handlePaymentWebhook env db rawBody sig = (.received, db) := by
  have hfind : db.orders.find? (fun o => o.payment.razorpayOrderId == pe.getStr "order_id") =
      none := List.find?_eq_none.mpr (fun o ho => by simp [hno o ho])
  simp [handlePaymentWebhook, hp, hsig, dispatchWebhookEvent, hev,
        handlePaymentCaptured, hent, hfind]

/-- Witness for C7 at the concrete unknown-order webhook. -/
theorem c7_unknown_order_acknowledged_witness :
    Json.parse rawUnknown = some payloadUnknown ∧
    entityOf payloadUnknown "payment" = some entityUnknown ∧
    (∀ o ∈ dbW.orders,
      (o.payment.razorpayOrderId == entityUnknown.getStr "order_id") = false) ∧
    handlePaymentWebhook envW dbW rawUnknown ("ws." ++ rawUnknown) = (.received, dbW) :=
  ⟨rfl, rfl, by intro o ho; fin_cases ho; rfl,
   c7_unknown_order_acknowledged envW dbW rawUnknown ("ws." ++ rawUnknown)
     payloadUnknown entityUnknown rfl rfl rfl rfl
     (by intro o ho; fin_cases ho; rfl)⟩

/-! ### C3 -/

/-- Counterexample for C3: a signature-valid payment.captured webhook whose
Order exists; when the notification sink fails the handler still
acknowledges, but the Payment Record stays "pending" — the very same
webhook with a healthy sink sets it to "completed", so the notification
failure did prevent the reconciliation updates. -/
theorem c3_notification_blocks_updates_counterexample :
    (dbW.orders.find?
        (fun o => o.payment.razorpayOrderId == some "order_rz_1")).isSome = true ∧
    (handlePaymentWebhook envWFail dbW rawCaptured ("ws." ++ rawCaptured)).1 = .received ∧
    (handlePaymentWebhook envWFail dbW rawCaptured
        ("ws." ++ rawCaptured)).2.payments.map (fun p => p.status) = ["pending"] ∧
    (handlePaymentWebhook envW dbW rawCaptured
        ("ws." ++ rawCaptured)).2.payments.map (fun p => p.status) = ["completed"] :=
  ⟨by decide, by decide, by decide, by decide⟩

/-- C3 (amended): a notification failure is caught and logged, so the
webhook request itself still succeeds (the response is the success
acknowledgment); but because the notification is emitted before the state
updates inside the same try-block, the failure skips the Order and
Payment Record updates of the triggering step: the state is returned
unchanged. -/
theorem c3_notification_failure_amended (env : Env) (db : Db) (payload : Json)
    (raw sig : String) (hf : env.notifyFails = true) :
    handlePaymentCaptured env db payload = db ∧
    handleRefundCreated env db payload = db ∧
    (Json.parse raw = some payload →
     sig = env.hmacSHA256 env.webhookSecret payload.stringify →
     handlePaymentWebhook env db raw sig = (.received, db)) := by
  refine ⟨handlePaymentCaptured_notify_failure env db payload hf,
          handleRefundCreated_notify_failure env db payload hf, ?_⟩
  intro hp hsig
  simp [handlePaymentWebhook, hp, hsig, dispatchWebhookEvent_notify_failure env db payload hf]

/-- Witness for C3 (amended) at the concrete captured webhook. -/
theorem c3_notification_failure_amended_witness :
    envWFail.notifyFails = true ∧
    handlePaymentWebhook envWFail dbW rawCaptured ("ws." ++ rawCaptured) =
      (.received, dbW) := by
  have h := c3_notification_failure_amended envWFail dbW
    (Json.obj [("event", Json.str "payment.captured"),
      ("payload", Json.obj [("payment", Json.obj [("entity",
        Json.obj [("order_id", Json.str "order_rz_1"), ("id", Json.str "pay_1"),
                  ("amount", Json.num 49900)])])])])
    rawCaptured ("ws." ++ rawCaptured) rfl
  exact ⟨rfl, h.2.2 rfl rfl⟩

/-! ### C2 -/

/-- A store whose single Payment Record is already refunded. -/
def dbRefunded : Db :=
  { dbW with
      payments := [{ id := "p1", orderId := "o1", userId := "u1",
                     razorpayOrderId := "order_rz_1",
                     razorpayPaymentId := some "pay_1", amount := 499,
                     currency := "INR", status := "refunded",
                     paymentMethod := "card" }] }

/-- A verification request for the stored gateway order, with the valid
signature. -/
def reqValid : VerifyReq := { reqNoOrder with order_id := "o1" }

/-- Counterexample for C2: a refunded Payment Record is regressed to
"completed" by a subsequent synchronous verification with a valid
payload — refunded is not terminal. -/
theorem c2_refunded_regressed_counterexample :
    dbRefunded.payments.map (fun p => p.status) = ["refunded"] ∧
    (verifyPayment envW dbRefunded reqValid).2.payments.map (fun p => p.status) =
      ["completed"] :=
  ⟨by decide, by decide⟩

/-- C2 (amended): refunded is terminal only for gateway order initiation
(which never writes the status of an existing record; it can at most
append a fresh "pending" record) and for refund.created webhooks (which
only ever write "refunded"); but synchronous verification with a valid
payload sets the matched record to "completed", and a payment.captured
webhook whose Order is found (with a healthy notification sink) does the
same — so a refunded record can be regressed. -/
theorem c2_refunded_not_terminal_amended :
    (∀ (env : Env) (db : Db) (req : CreateOrderReq),
      (createOrder env db req).2.payments.map (fun p => p.status) =
          db.payments.map (fun p => p.status) ∨
      (createOrder env db req).2.payments.map (fun p => p.status) =
          db.payments.map (fun p => p.status) ++ ["pending"]) ∧
    (∀ (env : Env) (db : Db) (payload : Json) (i : Nat),
      (db.payments.map (fun p => p.status))[i]? = some "refunded" →
      ((handleRefundCreated env db payload).payments.map (fun p => p.status))[i]? =
        some "refunded") ∧
    (∀ (env : Env) (db : Db) (req : VerifyReq) (p : Payment),
      req.razorpay_order_id ≠ "" → req.razorpay_payment_id ≠ "" →
      req.razorpay_signature ≠ "" → req.order_id ≠ "" →
      env.hmacSHA256 env.keySecret
          (req.razorpay_order_id ++ "|" ++ req.razorpay_payment_id) =
        req.razorpay_signature →
      db.payments.find? (fun q => q.razorpayOrderId == req.razorpay_order_id) = some p →
      ((verifyPayment env db req).2.payments.find?
          (fun q => q.razorpayOrderId == req.razorpay_order_id)).map (fun q => q.status) =
        some "completed") ∧
    (∀ (env : Env) (db : Db) (payload pe : Json) (oid : String) (o : Order),
      env.notifyFails = false →
      entityOf payload "payment" = some pe →
      pe.getStr "order_id" = some oid →
      db.orders.find? (fun q => q.payment.razorpayOrderId == pe.getStr "order_id") = some o →
      ((handlePaymentCaptured env db payload).payments.find?
          (fun q => q.razorpayOrderId == oid)).map (fun q => q.status) =
        (db.payments.find? (fun q => q.razorpayOrderId == oid)).map
          (fun _ => "completed")) := by
  refine ⟨?_, ?_, ?_, ?_⟩
  · intro env db req
    by_cases hc1 : req.amount = 0 ∨ req.orderId = ""
    · left; simp [createOrder, hc1]
    · by_cases hc2 : req.amount ≤ 0
      · left; simp [createOrder, hc1, hc2]
      · cases hfind : db.payments.find? (fun p => p.orderId == req.orderId) with
        | some p =>
          left
          simp only [createOrder, hc1, hc2, hfind, if_false]
          exact map_updateFirst (fun q : Payment => q.orderId == req.orderId)
            (createOrderSetPayment req env.newGatewayOrderId (req.currency.getD "INR")
              (if req.paymentMethod = "" then "card" else req.paymentMethod))
            (fun q => q.status) (fun q => rfl) db.payments
        | none =>
          right
          simp [createOrder, hc1, hc2, hfind]
  · intro env db payload i h
    cases hent : entityOf payload "refund" with
    | none => simpa [handleRefundCreated, hent] using h
    | some re =>
      cases hfindp : db.payments.find? (fun p => p.razorpayPaymentId == re.getStr "payment_id") with
      | none => simpa [handleRefundCreated, hent, hfindp] using h
      | some pay =>
        cases hfindo : db.orders.find? (fun o => o.id == pay.orderId) with
        | none => simpa [handleRefundCreated, hent, hfindp, hfindo] using h
        | some o =>
          cases hnf : env.notifyFails with
          | true =>
            simpa [handleRefundCreated, hent, hfindp, hfindo, createNotification, hnf] using h
          | false =>
            simp only [handleRefundCreated, hent, hfindp, hfindo, createNotification, hnf,
              Bool.false_eq_true, if_false]
            rcases getElem?_map_updateFirst (fun p : Payment => p.id == pay.id)
                (fun p => { p with status := "refunded", refundDetails := some re })
                (fun p => p.status) "refunded" (fun p => rfl) db.payments i with hc | hc
            · rw [hc]; exact h
            · rw [hc]
  · intro env db req p h1 h2 h3 h4 hsig hfind
    rw [verifyPayment_success env db req h1 h2 h3 h4 hsig p hfind]
    have hkey : ∀ q : Payment,
        ((verifyUpdatedPayment env req q).razorpayOrderId == req.razorpay_order_id) =
          (q.razorpayOrderId == req.razorpay_order_id) := fun q => rfl
    rw [show ({ db with
          payments := updateFirst (fun q => q.razorpayOrderId == req.razorpay_order_id)
            (verifyUpdatedPayment env req) db.payments,
          orders := updateFirst (fun o => o.id == req.order_id)
            (verifyUpdatedOrder env req) db.orders } : Db).payments =
        updateFirst (fun q => q.razorpayOrderId == req.razorpay_order_id)
          (verifyUpdatedPayment env req) db.payments from rfl]
    rw [find?_updateFirst (fun q : Payment => q.razorpayOrderId == req.razorpay_order_id)
      (verifyUpdatedPayment env req) hkey, hfind]
    rfl
  · intro env db payload pe oid o hnf hent hoid hfind
    simp only [handlePaymentCaptured, hent, hfind, createNotification, hnf,
      Bool.false_eq_true, if_false]
    simp only [hoid]
    have hpred : (fun p : Payment => some p.razorpayOrderId == some oid) =
        (fun p : Payment => p.razorpayOrderId == oid) := funext (fun p => rfl)
    rw [hpred]
    rw [find?_updateFirst (fun q : Payment => q.razorpayOrderId == oid)
      (fun p => { p with
        status := "completed",
        razorpayPaymentId := pe.getStr "id",
        paymentDetails := some pe }) (fun q => rfl)]
    cases db.payments.find? (fun q => q.razorpayOrderId == oid) <;> rfl

/-- Witness for C2 (amended): its verification conjunct applied to the
concrete refunded record. -/
theorem c2_refunded_not_terminal_amended_witness :
    (dbRefunded.payments.find?
        (fun q => q.razorpayOrderId == reqValid.razorpay_order_id) =
      some { id := "p1", orderId := "o1", userId := "u1",
             razorpayOrderId := "order_rz_1", razorpayPaymentId := some "pay_1",
             amount := 499, currency := "INR", status := "refunded",
             paymentMethod := "card" }) ∧
    ((verifyPayment envW dbRefunded reqValid).2.payments.find?
        (fun q => q.razorpayOrderId == reqValid.razorpay_order_id)).map
      (fun q => q.status) = some "completed" :=
  ⟨rfl,
   c2_refunded_not_terminal_amended.2.2.1 envW dbRefunded reqValid _
     (by decide) (by decide) (by decide) (by decide) (by decide) rfl⟩

/-! ### C4 -/

/-- A raw webhook body that is valid JSON but not in compact serialized
form (a space after the colon). -/
def rawSpaced : String := "\x7b\"event\": \"ping\"\x7d"

/-- The compact re-serialization of `rawSpaced`'s parse. -/
def rawCompact : String := "\x7b\"event\":\"ping\"\x7d"

/-- Counterexample for C4: the handler does not recompute the HMAC over the
exact raw body.  For a raw body with an extra space, a header equal to the
HMAC of the compact re-serialization differs from the HMAC of the raw
body, yet the handler acknowledges instead of rejecting. -/
theorem c4_raw_body_counterexample :
    Json.parse rawSpaced = some (Json.obj [("event", Json.str "ping")]) ∧
    envW.hmacSHA256 envW.webhookSecret rawSpaced ≠
      envW.hmacSHA256 envW.webhookSecret rawCompact ∧
    (handlePaymentWebhook envW dbW rawSpaced
        (envW.hmacSHA256 envW.webhookSecret rawCompact)).1 = .received :=
  ⟨rfl, by decide, by decide⟩

/-- C4 (amended): handlePaymentWebhook recomputes the HMAC-SHA256, under
the webhook shared secret, over JSON.stringify of the parsed request body
(which equals the raw body only when the raw body is already in compact
serialized form); when that recomputation differs from the
x-razorpay-signature header it rejects with invalid-signature and takes no
further action: no state change and no event dispatch. -/
theorem c4_webhook_signature_amended (env : Env) (db : Db) (rawBody sig : String)
    (payload : Json)
    (hp : Json.parse rawBody = some payload)
    (hsig : sig ≠ env.hmacSHA256 env.webhookSecret payload.stringify) :
    handlePaymentWebhook env db rawBody sig = (.invalidSignature, db) := by
  simp [handlePaymentWebhook, hp, hsig]

/-- Witness for C4 (amended) at a concrete mismatching header. -/
theorem c4_webhook_signature_amended_witness :
    Json.parse rawSpaced = some (Json.obj [("event", Json.str "ping")]) ∧
    ("tampered" : String) ≠
      envW.hmacSHA256 envW.webhookSecret (Json.obj [("event", Json.str "ping")]).stringify ∧
    handlePaymentWebhook envW dbW rawSpaced "tampered" = (.invalidSignature, dbW) :=
  ⟨rfl, by decide,
   c4_webhook_signature_amended envW dbW rawSpaced "tampered"
     (Json.obj [("event", Json.str "ping")]) rfl (by decide)⟩

end Shop
